import Mathlib

/-
Shallow embedding of the interaction-logging subsystem of the consultor-gerard
repository: the class GoogleSheetsLogger of src/google_sheets_logger.py and the
logging call sites of src/consultar_terminal.py and src/consultar_web.py.

Python exceptions are modelled with Except String: a method that can raise has
an Except result type, a try/except block is an explicit match on the outcome
of its body, and the external world (filesystem, Google Sheets API) is a
structure of per-call outcomes.  The spreadsheet is a list of rows; console
output is a list of tagged messages, one constructor per print statement of the
source.
-/

namespace GSL

/-- A cell of a spreadsheet row: log_interaction appends fourteen strings and
one integer (the unix timestamp), lines 203-219 of google_sheets_logger.py. -/
inductive Cell where
  | str (s : String)
  | int (n : Int)
deriving DecidableEq

abbrev Row := List Cell

/-- Python slicing s[:n] over code points, as in answer[:200] and
question[:50] of google_sheets_logger.py. -/
def pyTake (s : String) (n : Nat) : String := String.mk (s.toList.take n)

/-- The device_info dictionary of log_interaction: the three keys the source
reads, a missing key modelled as none (dict.get then yields the default). -/
structure DeviceInfo where
  device_type : Option String
  browser : Option String
  os : Option String
deriving DecidableEq

/-- The location_info dictionary of log_interaction: the three keys the source
reads. -/
structure LocationInfo where
  city : Option String
  country : Option String
  ip : Option String
deriving DecidableEq

/-- The timing dictionary of log_interaction: the source reads only
total_time (a number of seconds, modelled as a rational). -/
structure Timing where
  total_time : Option ℚ
deriving DecidableEq

/-- The wall clock at the moment log_interaction runs: the formatted
datetime.now() string and the integer unix timestamp, lines 166-168. -/
structure Now where
  str : String
  unix : Int
deriving DecidableEq

/-- Round a rational to the nearest integer, ties to even, as Python float
formatting does. -/
def roundHalfEven (q : ℚ) : Int :=
  let f : Int := ⌊q⌋
  let r : ℚ := q - f
  if r < 1/2 then f
  else if 1/2 < r then f + 1
  else if f % 2 = 0 then f else f + 1

/-- Fixed two-decimal formatting of a rational, the f-string with :.2f at
line 215 of google_sheets_logger.py. -/
def fmt2 (q : ℚ) : String :=
  let n := roundHalfEven (q * 100)
  let sign := if n < 0 then "-" else ""
  let m := n.natAbs
  let r := m % 100
  sign ++ toString (m / 100) ++ "." ++ (if r < 10 then "0" else "") ++ toString r

/-- The 15 column headers written by _setup_headers, lines 109-125. -/
def headers : List String :=
  ["ID", "Fecha/Hora", "Usuario", "Pregunta", "Respuesta (Resumen)",
   "Dispositivo", "Navegador", "Sistema Operativo", "Ciudad", "País", "IP",
   "Tiempo Respuesta (s)", "Estado", "Error", "Timestamp Unix"]

/-- The row built by log_interaction, lines 165-219 of
google_sheets_logger.py: defaults for missing device, location and timing
dictionaries, the 200-character answer summary, the status marker and the
error message, laid out in the column order of headers. -/
def interactionRow (now : Now) (interaction_id user question answer : String)
    (device_info : Option DeviceInfo) (location_info : Option LocationInfo)
    (timing : Option Timing) (success : Bool) (error : Option String) : Row :=
  let device_type := match device_info with
    | none => "Desconocido"
    | some d => d.device_type.getD "Desconocido"
  let browser := match device_info with
    | none => "Desconocido"
    | some d => d.browser.getD "Desconocido"
  let os_type := match device_info with
    | none => "Desconocido"
    | some d => d.os.getD "Desconocido"
  let city := match location_info with
    | none => "Desconocida"
    | some l => l.city.getD "Desconocida"
  let country := match location_info with
    | none => "Desconocido"
    | some l => l.country.getD "Desconocido"
  let ip := match location_info with
    | none => "No disponible"
    | some l => l.ip.getD "No disponible"
  let response_time : ℚ := match timing with
    | none => 0
    | some t => t.total_time.getD 0
  let answer_summary :=
    if answer.length > 200 then pyTake answer 200 ++ "..." else answer
  let status := if success then "✅ Exitoso" else "❌ Error"
  let error_msg := match error with
    | some e => if e = "" then "" else e
    | none => ""
  [Cell.str interaction_id, Cell.str now.str, Cell.str user,
   Cell.str question, Cell.str answer_summary, Cell.str device_type,
   Cell.str browser, Cell.str os_type, Cell.str city, Cell.str country,
   Cell.str ip, Cell.str (fmt2 response_time), Cell.str status,
   Cell.str error_msg, Cell.int now.unix]

/-- One console print of google_sheets_logger.py, one constructor per print
statement; the payload is the interpolated value.  isWarning marks the lines
that start with the warning or error sign. -/
inductive Msg where
  | warnCredsMissing (file : String)
  | warnSetupInstructions
  | warnSheetNotFound (name : String)
  | okConnected (name : String)
  | errConnecting (e : String)
  | infoLocalOnly
  | okLogged (user : String) (questionStart : String)
  | warnLogFailed (e : String)
  | warnStatsFailed (e : String)
deriving DecidableEq

/-- The prints that carry the warning sign: the credentials warning (line 64),
the spreadsheet-not-found warning (line 85), the connection error (line 104),
the per-write error (line 227) and the stats error (line 263). -/
def Msg.isWarning : Msg → Bool
  | .warnCredsMissing _ => true
  | .warnSheetNotFound _ => true
  | .errConnecting _ => true
  | .warnLogFailed _ => true
  | .warnStatsFailed _ => true
  | _ => false

/-- The outcome of a gspread call from which the source catches a dedicated
not-found exception (client.open and spreadsheet.worksheet): success, the
caught not-found exception, or any other exception. -/
inductive OpenOutcome where
  | found
  | notFound
  | raises (msg : String)
deriving DecidableEq

/-- The behaviour of the external world during one call: the filesystem check
and each Google Sheets API call the source makes, with the exception it
raises, if any. -/
structure Env where
  fileExists : Bool
  authResult : Except String Unit
  openOutcome : OpenOutcome
  wsOutcome : OpenOutcome
  addWsResult : Except String Unit
  updateResult : Except String Unit
  formatResult : Except String Unit
  appendResult : Except String Unit
  valuesResult : Except String Unit

/-- The mutable attributes of a GoogleSheetsLogger set in __init__ (lines
49-54): the three configuration strings and the client, worksheet and enabled
fields (the two handles modelled by whether they have been assigned). -/
structure LoggerState where
  credentials_file : String
  spreadsheet_name : String
  worksheet_name : String
  client : Bool
  worksheet : Bool
  enabled : Bool
deriving DecidableEq

/-- Writing the header row with worksheet.update over range A1:O1
(_setup_headers, line 127): the first row of the sheet becomes the headers. -/
def updateHeaderRow (sheet : List Row) : List Row :=
  headers.map Cell.str :: sheet.drop 1

/-- The try-block of _connect (lines 61-101) run to its end or to the first
exception: the state and sheet as mutated so far, the console output, and the
exception that escaped the block, if any. -/
structure ConnectTry where
  st : LoggerState
  sheet : List Row
  out : List Msg
  exc : Option String
deriving DecidableEq

/-- The body of _connect, line by line: the credentials file check, the
authentication, the inner try around client.open catching only
SpreadsheetNotFound, the inner try around spreadsheet.worksheet catching only
WorksheetNotFound (creating the worksheet and its headers then), and finally
enabled := true with the success print. -/
def connectTry (env : Env) (st0 : LoggerState) (sheet : List Row) : ConnectTry :=
  if !env.fileExists then
    { st := st0, sheet := sheet,
      out := [.warnCredsMissing st0.credentials_file, .warnSetupInstructions],
      exc := none }
  else
    match env.authResult with
    | .error e => { st := st0, sheet := sheet, out := [], exc := some e }
    | .ok _ =>
      let st1 := { st0 with client := true }
      match env.openOutcome with
      | .raises e => { st := st1, sheet := sheet, out := [], exc := some e }
      | .notFound =>
        { st := st1, sheet := sheet,
          out := [.warnSheetNotFound st1.spreadsheet_name], exc := none }
      | .found =>
        match env.wsOutcome with
        | .raises e => { st := st1, sheet := sheet, out := [], exc := some e }
        | .found =>
          let st2 := { st1 with worksheet := true }
          { st := { st2 with enabled := true }, sheet := sheet,
            out := [.okConnected st2.spreadsheet_name], exc := none }
        | .notFound =>
          match env.addWsResult with
          | .error e => { st := st1, sheet := sheet, out := [], exc := some e }
          | .ok _ =>
            let st2 := { st1 with worksheet := true }
            match env.updateResult with
            | .error e => { st := st2, sheet := sheet, out := [], exc := some e }
            | .ok _ =>
              let sheet1 := updateHeaderRow sheet
              match env.formatResult with
              | .error e => { st := st2, sheet := sheet1, out := [], exc := some e }
              | .ok _ =>
                { st := { st2 with enabled := true }, sheet := sheet1,
                  out := [.okConnected st2.spreadsheet_name], exc := none }

/-- _connect (lines 59-105): the try-block, whose exception, if any, is caught
by the final except clause, which prints the error and the local-logging note
and returns normally.  An error value would be an exception reaching the
caller; _connect never produces one. -/
def connect (env : Env) (st0 : LoggerState) (sheet : List Row) :
    Except String (LoggerState × List Row × List Msg) :=
  let r := connectTry env st0 sheet
  match r.exc with
  | none => .ok (r.st, r.sheet, r.out)
  | some e => .ok (r.st, r.sheet, r.out ++ [.errConnecting e, .infoLocalOnly])

/-- __init__ (lines 35-57): stores the three configuration strings, sets
client and worksheet to None and enabled to False, then calls _connect. -/
def init (env : Env) (credentials_file spreadsheet_name worksheet_name : String)
    (sheet : List Row) : Except String (LoggerState × List Row × List Msg) :=
  connect env
    { credentials_file := credentials_file,
      spreadsheet_name := spreadsheet_name,
      worksheet_name := worksheet_name,
      client := false, worksheet := false, enabled := false }
    sheet

/-- log_interaction (lines 135-227): returns at once when the logger is
disabled; otherwise builds the row and appends it inside a try whose except
clause prints the error and returns normally.  The returned state is the
unchanged self, the sheet after the call, and the console output. -/
def log_interaction (env : Env) (st : LoggerState) (sheet : List Row)
    (now : Now) (interaction_id user question answer : String)
    (device_info : Option DeviceInfo) (location_info : Option LocationInfo)
    (timing : Option Timing) (success : Bool) (error : Option String) :
    Except String (LoggerState × List Row × List Msg) :=
  if !st.enabled then .ok (st, sheet, [])
  else
    let row := interactionRow now interaction_id user question answer
      device_info location_info timing success error
    match env.appendResult with
    | .error e => .ok (st, sheet, [.warnLogFailed e])
    | .ok _ =>
      .ok (st, sheet ++ [row], [.okLogged user (pyTake question 50)])

/-- The string gspread hands back for a cell when get_all_values reads the
sheet. -/
def cellStr : Cell → String
  | .str s => s
  | .int n => toString n

/-- get_stats (lines 229-264): the empty dictionary is none, the two-key
dictionary with total_interactions and unique_users is some (total, unique).
Disabled logger: empty dictionary.  Otherwise a try reading all values: a
sheet of at most one row gives (0, 0); else the rows after the header are
counted and their user column (index 2, read only from rows longer than 2) is
collected into a set; the except clause prints the error and returns the
empty dictionary. -/
def get_stats (env : Env) (st : LoggerState) (sheet : List Row) :
    Except String (Option (Nat × Nat) × List Msg) :=
  if !st.enabled then .ok (none, [])
  else
    match env.valuesResult with
    | .error e => .ok (none, [.warnStatsFailed e])
    | .ok _ =>
      let all_rows := sheet.map (fun r => r.map cellStr)
      if all_rows.length ≤ 1 then .ok (some (0, 0), [])
      else
        let data_rows := all_rows.drop 1
        let users := data_rows.foldl (fun acc row =>
          match row.get? 2 with
          | some u => if u ∈ acc then acc else acc ++ [u]
          | none => acc) []
        .ok (some (data_rows.length, users.length), [])

/-- Python truthiness of the session id at the call sites: None and the empty
string are falsy. -/
def sidTruthy : Option String → Bool
  | none => false
  | some s => !s.isEmpty

/-- One call into the InteractionLogger as the two frontends make it; the
session id argument is kept so that a call made with the None id is visible in
the trace. -/
inductive LogCall where
  | start_interaction
  | mark_phase (session_id : Option String) (phase : String)
  | log_response (session_id : Option String)
  | end_interaction (session_id : Option String) (status : String)
      (error : Option String)
deriving DecidableEq

/-- The logger calls one question turn of consultar_terminal.py main makes
(lines 420-493), given the session id start_interaction returned and whether
chain.invoke raises (the modelled failure point, line 436): the two phase
marks before the LLM call are unconditional; on failure control jumps to the
except clause, where end_interaction runs only under the session id truthiness
guard of line 485 or 492; on success the remaining marks and log_response are
unconditional and end_interaction is again guarded. -/
def terminalTurnCalls (sid : Option String) (invokeRaises : Bool)
    (errMsg : String) : List LogCall :=
  [.start_interaction, .mark_phase sid "rag_start", .mark_phase sid "llm_start"]
    ++
  (if invokeRaises then
    (if sidTruthy sid then [.end_interaction sid "error" (some errMsg)] else [])
  else
    [.mark_phase sid "llm_end", .log_response sid,
     .mark_phase sid "processing_start", .mark_phase sid "processing_end"]
      ++
    (if sidTruthy sid then [.end_interaction sid "success" none] else []))

/-- The logger calls one question turn of consultar_web.py main makes (lines
821-973), with the same modelled failure point (the chain invocation at line
846): mark_phase and log_response are unconditional, end_interaction is
guarded by the truthiness checks of lines 962 and 972. -/
def webTurnCalls (sid : Option String) (invokeRaises : Bool)
    (errMsg : String) : List LogCall :=
  [.start_interaction, .mark_phase sid "rag_start", .mark_phase sid "llm_start"]
    ++
  (if invokeRaises then
    (if sidTruthy sid then [.end_interaction sid "error" (some errMsg)] else [])
  else
    [.mark_phase sid "llm_end", .log_response sid,
     .mark_phase sid "processing_start", .mark_phase sid "processing_end",
     .mark_phase sid "render_start", .mark_phase sid "render_end"]
      ++
    (if sidTruthy sid then [.end_interaction sid "success" none] else []))

/-- Modelled from the spec: the InteractionLogger front-end lives in the
module interaction_logger, which both consultar_terminal.py and
consultar_web.py import but which is not among the included sources.  Per
spec section 6, constructing it with anonymize true makes it redact or hash
the user field before persistence, the only contract being that the raw user
identity must not appear in the persisted record.  The redaction modelled
here masks the user as a run of asterisks one longer than the input, so the
persisted field depends only on the length of the user string. -/
def redactUser (user : String) : String :=
  String.mk (List.replicate (user.toList.length + 1) '*')

/-- Modelled from the spec: the user value the InteractionLogger hands to the
persistence layer, redacted exactly when the logger was constructed with
anonymize true. -/
def persistedUser (anonymize : Bool) (user : String) : String :=
  if anonymize then redactUser user else user

/-- A healthy backend: the credentials file exists and every API call
succeeds. -/
def envOk : Env :=
  { fileExists := true, authResult := .ok (), openOutcome := .found,
    wsOutcome := .found, addWsResult := .ok (), updateResult := .ok (),
    formatResult := .ok (), appendResult := .ok (), valuesResult := .ok () }

/-- A backend whose append_row call raises while everything else succeeds. -/
def envAppendFail (e : String) : Env :=
  { envOk with appendResult := .error e }

/-- A host with no credentials file. -/
def envNoCreds : Env :=
  { envOk with fileExists := false }

/-- The connected state init reaches under envOk. -/
def stEnabled : LoggerState :=
  { credentials_file := "google_credentials.json",
    spreadsheet_name := "GERARD - Logs de Usuarios",
    worksheet_name := "Interacciones",
    client := true, worksheet := true, enabled := true }

/-- A concrete clock value for witnesses. -/
def now0 : Now := { str := "2024-01-01 00:00:00", unix := 1704067200 }

/-- A row of the shape log_interaction appends, with a chosen id and user, for
exercising get_stats on concrete sheets. -/
def statsRow (id user : String) : Row :=
  [Cell.str id, Cell.str "2024-01-01 00:00:00", Cell.str user, Cell.str "q",
   Cell.str "a", Cell.str "Desconocido", Cell.str "Desconocido",
   Cell.str "Desconocido", Cell.str "Desconocida", Cell.str "Desconocido",
   Cell.str "No disponible", Cell.str "0.00", Cell.str "✅ Exitoso",
   Cell.str "", Cell.int 1704067200]

/-- The header row as _setup_headers writes it. -/
def headerRow : Row := headers.map Cell.str

/-- An answer of 201 characters, one over the summary limit. -/
def bigAnswer : String := String.mk (List.replicate 201 'a')

theorem fmt2_zero : fmt2 0 = "0.00" := by
  have h : roundHalfEven (0 * 100) = 0 := by simp [roundHalfEven]
  simp only [fmt2, h]
  decide

theorem log_interaction_disabled {env : Env} {st : LoggerState} {sheet : List Row}
    {now : Now} {iid user question answer : String} {di : Option DeviceInfo}
    {li : Option LocationInfo} {t : Option Timing} {success : Bool}
    {error : Option String} (h : st.enabled = false) :
    log_interaction env st sheet now iid user question answer di li t success error
      = .ok (st, sheet, []) := by
  simp [log_interaction, h]

theorem get_stats_disabled {env : Env} {st : LoggerState} {sheet : List Row}
    (h : st.enabled = false) :
    get_stats env st sheet = .ok (none, []) := by
  simp [get_stats, h]

theorem log_interaction_ok {env : Env} {st : LoggerState} {sheet : List Row}
    {now : Now} {iid user question answer : String} {di : Option DeviceInfo}
    {li : Option LocationInfo} {t : Option Timing} {success : Bool}
    {error : Option String} (h1 : st.enabled = true)
    (h2 : env.appendResult = .ok ()) :
    log_interaction env st sheet now iid user question answer di li t success error
      = .ok (st, sheet ++ [interactionRow now iid user question answer di li t success error],
             [.okLogged user (pyTake question 50)]) := by
  simp [log_interaction, h1, h2]

theorem log_interaction_fail {env : Env} {st : LoggerState} {sheet : List Row}
    {now : Now} {iid user question answer : String} {di : Option DeviceInfo}
    {li : Option LocationInfo} {t : Option Timing} {success : Bool}
    {error : Option String} {e : String} (h1 : st.enabled = true)
    (h2 : env.appendResult = .error e) :
    log_interaction env st sheet now iid user question answer di li t success error
      = .ok (st, sheet, [.warnLogFailed e]) := by
  simp [log_interaction, h1, h2]

theorem init_isOk (env : Env) (cf sn wn : String) (sheet : List Row) :
    ∃ r, init env cf sn wn sheet = .ok r := by
  simp only [init, connect]
  split <;> exact ⟨_, rfl⟩

theorem log_interaction_isOk (env : Env) (st : LoggerState) (sheet : List Row)
    (now : Now) (iid user question answer : String) (di : Option DeviceInfo)
    (li : Option LocationInfo) (t : Option Timing) (success : Bool)
    (error : Option String) :
    ∃ r, log_interaction env st sheet now iid user question answer di li t success error = .ok r := by
  cases hE : st.enabled
  · exact ⟨_, log_interaction_disabled hE⟩
  · cases hA : env.appendResult with
    | error e => exact ⟨_, log_interaction_fail hE hA⟩
    | ok u => cases u; exact ⟨_, log_interaction_ok hE hA⟩

theorem get_stats_isOk (env : Env) (st : LoggerState) (sheet : List Row) :
    ∃ r, get_stats env st sheet = .ok r := by
  simp only [get_stats]
  split
  · exact ⟨_, rfl⟩
  · split
    · exact ⟨_, rfl⟩
    · split <;> exact ⟨_, rfl⟩

/-- C1: no public operation of the logging component ever raises an exception
into the caller: for every backend behaviour, every logger state and every
input (missing dictionaries and error included), construction
(init, which runs _connect), log_interaction and get_stats all return
normally (an ok value of the exception monad), absorbing every internal
failure. -/
theorem c1_public_methods_return_normally
    (env : Env) (cf sn wn : String) (sheet : List Row) (st : LoggerState)
    (now : Now) (iid user question answer : String) (di : Option DeviceInfo)
    (li : Option LocationInfo) (t : Option Timing) (success : Bool)
    (error : Option String) :
    (∃ r, init env cf sn wn sheet = .ok r) ∧
    (∃ r, log_interaction env st sheet now iid user question answer di li t success error = .ok r) ∧
    (∃ r, get_stats env st sheet = .ok r) :=
  ⟨init_isOk env cf sn wn sheet,
   log_interaction_isOk env st sheet now iid user question answer di li t success error,
   get_stats_isOk env st sheet⟩

/-- C2: when backend initialization fails at construction through a missing
credentials file, an authentication error, or the spreadsheet not being
found, the logger comes out of init with enabled false and a warning on the
console, and in that state every public method is a no-op on the backing
store: log_interaction returns without appending a row and get_stats returns
the empty dictionary, whatever the later backend behaviour. -/
theorem c2_construction_failure_disables
    (env : Env) (cf sn wn : String) (sheet : List Row)
    (h : env.fileExists = false ∨ (∃ e, env.authResult = .error e) ∨
         env.openOutcome = OpenOutcome.notFound) :
    ∃ st sheet1 out, init env cf sn wn sheet = .ok (st, sheet1, out) ∧
      st.enabled = false ∧
      (∃ m ∈ out, m.isWarning = true) ∧
      (∀ env2 sheet2 now iid user question answer di li t success error,
        log_interaction env2 st sheet2 now iid user question answer di li t success error
          = .ok (st, sheet2, [])) ∧
      (∀ env2 sheet2, get_stats env2 st sheet2 = .ok (none, [])) := by
  by_cases hf : env.fileExists = false
  · refine ⟨⟨cf, sn, wn, false, false, false⟩, sheet,
      [.warnCredsMissing cf, .warnSetupInstructions],
      by simp [init, connect, connectTry, hf], rfl,
      ⟨.warnCredsMissing cf, List.mem_cons_self _ _, rfl⟩,
      fun _ _ _ _ _ _ _ _ _ _ _ _ => log_interaction_disabled rfl,
      fun _ _ => get_stats_disabled rfl⟩
  · have hf' : env.fileExists = true := by
      cases hx : env.fileExists
      · exact absurd hx hf
      · rfl
    rcases h with h | ⟨e, he⟩ | h
    · exact absurd h hf
    · refine ⟨⟨cf, sn, wn, false, false, false⟩, sheet,
        [.errConnecting e, .infoLocalOnly],
        by simp [init, connect, connectTry, hf', he], rfl,
        ⟨.errConnecting e, List.mem_cons_self _ _, rfl⟩,
        fun _ _ _ _ _ _ _ _ _ _ _ _ => log_interaction_disabled rfl,
        fun _ _ => get_stats_disabled rfl⟩
    · cases ha : env.authResult with
      | error e =>
        refine ⟨⟨cf, sn, wn, false, false, false⟩, sheet,
          [.errConnecting e, .infoLocalOnly],
          by simp [init, connect, connectTry, hf', ha], rfl,
          ⟨.errConnecting e, List.mem_cons_self _ _, rfl⟩,
          fun _ _ _ _ _ _ _ _ _ _ _ _ => log_interaction_disabled rfl,
          fun _ _ => get_stats_disabled rfl⟩
      | ok u =>
        cases u
        refine ⟨⟨cf, sn, wn, true, false, false⟩, sheet,
          [.warnSheetNotFound sn],
          by simp [init, connect, connectTry, hf', ha, h], rfl,
          ⟨.warnSheetNotFound sn, List.mem_cons_self _ _, rfl⟩,
          fun _ _ _ _ _ _ _ _ _ _ _ _ => log_interaction_disabled rfl,
          fun _ _ => get_stats_disabled rfl⟩

/-- Witness for C2 at a concrete input: a host with no credentials file. -/
theorem c2_witness :
    ∃ st sheet1 out,
      init envNoCreds "google_credentials.json" "GERARD - Logs de Usuarios"
        "Interacciones" [] = .ok (st, sheet1, out) ∧
      st.enabled = false ∧
      (∃ m ∈ out, m.isWarning = true) ∧
      (∀ env2 sheet2 now iid user question answer di li t success error,
        log_interaction env2 st sheet2 now iid user question answer di li t success error
          = .ok (st, sheet2, [])) ∧
      (∀ env2 sheet2, get_stats env2 st sheet2 = .ok (none, [])) :=
  c2_construction_failure_disables envNoCreds "google_credentials.json"
    "GERARD - Logs de Usuarios" "Interacciones" [] (Or.inl rfl)

/-- C3 counterexample: the complete record a successful log_interaction call
persists, evaluated at a concrete input, next to the complete header list.
The 15 cells are id, date/time, user, question, answer summary, device,
browser, operating system, city, country, IP, response time, status, error
and unix timestamp: no cell holds a platform tag, a sources list or phase
timestamps, so the claimed at-minimum field list fails. -/
theorem c3_counterexample :
    interactionRow now0 "1" "ana" "pregunta" "respuesta" none none none true none =
      [Cell.str "1", Cell.str "2024-01-01 00:00:00", Cell.str "ana",
       Cell.str "pregunta", Cell.str "respuesta", Cell.str "Desconocido",
       Cell.str "Desconocido", Cell.str "Desconocido", Cell.str "Desconocida",
       Cell.str "Desconocido", Cell.str "No disponible", Cell.str "0.00",
       Cell.str "✅ Exitoso", Cell.str "", Cell.int 1704067200] ∧
    log_interaction envOk stEnabled [] now0 "1" "ana" "pregunta" "respuesta"
        none none none true none =
      .ok (stEnabled,
        [[Cell.str "1", Cell.str "2024-01-01 00:00:00", Cell.str "ana",
          Cell.str "pregunta", Cell.str "respuesta", Cell.str "Desconocido",
          Cell.str "Desconocido", Cell.str "Desconocido", Cell.str "Desconocida",
          Cell.str "Desconocido", Cell.str "No disponible", Cell.str "0.00",
          Cell.str "✅ Exitoso", Cell.str "", Cell.int 1704067200]],
        [.okLogged "ana" "pregunta"]) ∧
    headers = ["ID", "Fecha/Hora", "Usuario", "Pregunta", "Respuesta (Resumen)",
      "Dispositivo", "Navegador", "Sistema Operativo", "Ciudad", "País", "IP",
      "Tiempo Respuesta (s)", "Estado", "Error", "Timestamp Unix"] := by
  refine ⟨?_, ?_, rfl⟩
  · rw [← fmt2_zero]
    rfl
  · rw [← fmt2_zero]
    rfl

/-- C3 as the code has it: every row a successful log_interaction call appends
has exactly 15 cells holding the session id, the user as given, the question,
the answer summary, the response time, the status and the error message (plus
date/time, device, browser, operating system, city, country, IP and unix
timestamp); platform, sources and phase timestamps have no cell. -/
theorem c3_amended_row_fields
    (env : Env) (st : LoggerState) (sheet : List Row) (now : Now)
    (iid user question answer : String) (di : Option DeviceInfo)
    (li : Option LocationInfo) (t : Option Timing) (success : Bool)
    (error : Option String) (h1 : st.enabled = true)
    (h2 : env.appendResult = .ok ()) :
    ∃ row,
      log_interaction env st sheet now iid user question answer di li t success error
        = .ok (st, sheet ++ [row], [.okLogged user (pyTake question 50)]) ∧
      row.length = 15 ∧
      row.get? 0 = some (Cell.str iid) ∧
      row.get? 2 = some (Cell.str user) ∧
      row.get? 3 = some (Cell.str question) ∧
      row.get? 4 = some (Cell.str
        (if answer.length > 200 then pyTake answer 200 ++ "..." else answer)) ∧
      (∃ tm, row.get? 11 = some (Cell.str tm)) ∧
      row.get? 12 = some (Cell.str (if success then "✅ Exitoso" else "❌ Error")) ∧
      (∃ err, row.get? 13 = some (Cell.str err)) ∧
      row.get? 14 = some (Cell.int now.unix) :=
  ⟨interactionRow now iid user question answer di li t success error,
   log_interaction_ok h1 h2, rfl, rfl, rfl, rfl, rfl, ⟨_, rfl⟩, rfl, ⟨_, rfl⟩, rfl⟩

/-- Witness for the amended C3 at a concrete successful call. -/
theorem c3_amended_witness :
    ∃ row,
      log_interaction envOk stEnabled [] now0 "1" "ana" "pregunta" "respuesta"
          none none none true none
        = .ok (stEnabled, [] ++ [row], [.okLogged "ana" (pyTake "pregunta" 50)]) ∧
      row.length = 15 ∧
      row.get? 0 = some (Cell.str "1") ∧
      row.get? 2 = some (Cell.str "ana") ∧
      row.get? 3 = some (Cell.str "pregunta") ∧
      row.get? 4 = some (Cell.str
        (if "respuesta".length > 200 then pyTake "respuesta" 200 ++ "..." else "respuesta")) ∧
      (∃ tm, row.get? 11 = some (Cell.str tm)) ∧
      row.get? 12 = some (Cell.str (if true then "✅ Exitoso" else "❌ Error")) ∧
      (∃ err, row.get? 13 = some (Cell.str err)) ∧
      row.get? 14 = some (Cell.int now0.unix) :=
  c3_amended_row_fields envOk stEnabled [] now0 "1" "ana" "pregunta" "respuesta"
    none none none true none rfl rfl

/-- C4 counterexample: at the terminal and web call sites, with a None
session id and no failure during the turn, mark_phase and log_response are
still invoked with the None id, so they are not skipped as claimed. -/
theorem c4_counterexample :
    LogCall.mark_phase none "rag_start" ∈ terminalTurnCalls none false "err" ∧
    LogCall.log_response none ∈ terminalTurnCalls none false "err" ∧
    LogCall.mark_phase none "rag_start" ∈ webTurnCalls none false "err" ∧
    LogCall.log_response none ∈ webTurnCalls none false "err" := by
  decide

/-- C4 as the code has it: at both call sites only end_interaction is guarded
by the session id truthiness check, so with a None id end_interaction is never
invoked, while mark_phase and log_response are still invoked with the None id
(the first phase mark on every path, log_response on the no-failure path). -/
theorem c4_amended_only_end_guarded
    (invokeRaises : Bool) (errMsg status : String) (er : Option String) :
    (LogCall.end_interaction none status er ∉ terminalTurnCalls none invokeRaises errMsg) ∧
    (LogCall.end_interaction none status er ∉ webTurnCalls none invokeRaises errMsg) ∧
    LogCall.mark_phase none "rag_start" ∈ terminalTurnCalls none invokeRaises errMsg ∧
    LogCall.mark_phase none "rag_start" ∈ webTurnCalls none invokeRaises errMsg ∧
    LogCall.log_response none ∈ terminalTurnCalls none false errMsg ∧
    LogCall.log_response none ∈ webTurnCalls none false errMsg := by
  cases invokeRaises <;>
    simp [terminalTurnCalls, webTurnCalls, sidTruthy]

/-- C5: a transient failure during a single write does not disable the
logger: when append_row raises, log_interaction returns normally with the
state (enabled flag and worksheet handle included) and the sheet unchanged,
and a later call under a healthy backend appends its row normally from that
same state. -/
theorem c5_transient_failure_keeps_logger_enabled
    (env env2 : Env) (st : LoggerState) (sheet : List Row) (now now2 : Now)
    (iid user question answer iid2 user2 question2 answer2 : String)
    (di di2 : Option DeviceInfo) (li li2 : Option LocationInfo)
    (t t2 : Option Timing) (success success2 : Bool)
    (error error2 : Option String) (e : String)
    (h1 : st.enabled = true) (h2 : env.appendResult = .error e)
    (h3 : env2.appendResult = .ok ()) :
    log_interaction env st sheet now iid user question answer di li t success error
      = .ok (st, sheet, [.warnLogFailed e]) ∧
    log_interaction env2 st sheet now2 iid2 user2 question2 answer2 di2 li2 t2 success2 error2
      = .ok (st, sheet ++ [interactionRow now2 iid2 user2 question2 answer2 di2 li2 t2 success2 error2],
             [.okLogged user2 (pyTake question2 50)]) :=
  ⟨log_interaction_fail h1 h2, log_interaction_ok h1 h3⟩

/-- Witness for C5: a failed write under envAppendFail leaves the enabled
state and sheet as they were, and the next call under envOk appends. -/
theorem c5_witness :
    log_interaction (envAppendFail "boom") stEnabled [] now0 "1" "ana" "q" "a"
        none none none true none
      = .ok (stEnabled, [], [.warnLogFailed "boom"]) ∧
    log_interaction envOk stEnabled [] now0 "2" "bob" "q2" "a2"
        none none none true none
      = .ok (stEnabled, [] ++ [interactionRow now0 "2" "bob" "q2" "a2" none none none true none],
             [.okLogged "bob" (pyTake "q2" 50)]) :=
  c5_transient_failure_keeps_logger_enabled (envAppendFail "boom") envOk
    stEnabled [] now0 now0 "1" "ana" "q" "a" "2" "bob" "q2" "a2"
    none none none none none none true true none none "boom" rfl rfl rfl

/-- C6 counterexample: get_stats does combine data from more than one
session's record.  Three stores, each holding the header row and two session
records: the stats of the ana/bob store differ from the stats of the ana/ana
store, though both hold the same first record, and differ from the stats of
the bob/bob store, though both hold the same second record; so the result is
a function of neither record alone — the unique-user count aggregates across
sessions. -/
theorem c6_counterexample :
    get_stats envOk stEnabled [headerRow, statsRow "1" "ana", statsRow "2" "bob"]
      = .ok (some (2, 2), []) ∧
    get_stats envOk stEnabled [headerRow, statsRow "1" "ana", statsRow "2" "ana"]
      = .ok (some (2, 1), []) ∧
    get_stats envOk stEnabled [headerRow, statsRow "1" "bob", statsRow "2" "bob"]
      = .ok (some (2, 1), []) := by
  refine ⟨?_, ?_, ?_⟩ <;> rfl

/-- C6 as the code has it: the write path performs no cross-session reads —
the row a successful log_interaction call appends is the same function of the
call's own arguments whatever the store already holds — while get_stats does
read back and aggregate over all stored records. -/
theorem c6_amended_write_independent_of_store
    (env : Env) (st : LoggerState) (now : Now)
    (iid user question answer : String) (di : Option DeviceInfo)
    (li : Option LocationInfo) (t : Option Timing) (success : Bool)
    (error : Option String) (h1 : st.enabled = true)
    (h2 : env.appendResult = .ok ()) :
    ∀ sheet1 sheet2 : List Row, ∃ row,
      log_interaction env st sheet1 now iid user question answer di li t success error
        = .ok (st, sheet1 ++ [row], [.okLogged user (pyTake question 50)]) ∧
      log_interaction env st sheet2 now iid user question answer di li t success error
        = .ok (st, sheet2 ++ [row], [.okLogged user (pyTake question 50)]) :=
  fun _ _ =>
    ⟨interactionRow now iid user question answer di li t success error,
     log_interaction_ok h1 h2, log_interaction_ok h1 h2⟩

/-- Witness for the amended C6: the same row lands on an empty store and on a
store already holding the header row. -/
theorem c6_amended_witness :
    ∃ row,
      log_interaction envOk stEnabled [] now0 "1" "ana" "q" "a" none none none true none
        = .ok (stEnabled, [] ++ [row], [.okLogged "ana" (pyTake "q" 50)]) ∧
      log_interaction envOk stEnabled [headerRow] now0 "1" "ana" "q" "a" none none none true none
        = .ok (stEnabled, [headerRow] ++ [row], [.okLogged "ana" (pyTake "q" 50)]) :=
  c6_amended_write_independent_of_store envOk stEnabled now0 "1" "ana" "q" "a"
    none none none true none rfl rfl [] [headerRow]

/-- C7 counterexample: two finalizations differing only in the error detail,
both with success status, persist different records — the success record
carries the supplied error string in its error cell. -/
theorem c7_counterexample :
    interactionRow now0 "1" "ana" "q" "a" none none none true (some "boom") ≠
      interactionRow now0 "1" "ana" "q" "a" none none none true none ∧
    (interactionRow now0 "1" "ana" "q" "a" none none none true (some "boom")).get? 13
      = some (Cell.str "boom") := by
  constructor
  · intro h
    exact absurd (congrArg (fun r => r.get? 13) h) (by decide)
  · rfl

/-- C7 as the code has it: the error argument is not ignored on success — the
error cell of the persisted row equals the supplied error string whenever one
is supplied and non-empty, whatever the status, and is empty when the error
argument is None. -/
theorem c7_amended_error_field
    (now : Now) (iid user question answer : String) (di : Option DeviceInfo)
    (li : Option LocationInfo) (t : Option Timing) (success : Bool)
    (e : String) (h : e ≠ "") :
    (interactionRow now iid user question answer di li t success (some e)).get? 13
      = some (Cell.str e) ∧
    (interactionRow now iid user question answer di li t success none).get? 13
      = some (Cell.str "") := by
  constructor
  · have hcell : (interactionRow now iid user question answer di li t success (some e)).get? 13
        = some (Cell.str (if e = "" then "" else e)) := rfl
    rw [hcell, if_neg h]
  · rfl

/-- Witness for the amended C7: a success-status row with error boom stores
boom in the error cell. -/
theorem c7_amended_witness :
    (interactionRow now0 "1" "ana" "q" "a" none none none true (some "boom")).get? 13
      = some (Cell.str "boom") ∧
    (interactionRow now0 "1" "ana" "q" "a" none none none true none).get? 13
      = some (Cell.str "") :=
  c7_amended_error_field now0 "1" "ana" "q" "a" none none none true "boom"
    (by decide)

/-- C8: with anonymize true, the user field handed to persistence is the
redacted form: the user cell of the persisted row holds redactUser user,
which never equals the literal user value and depends only on the length of
the user string, never on its content. -/
theorem c8_anonymize_redacts_user
    (user other : String) (now : Now) (iid question answer : String)
    (di : Option DeviceInfo) (li : Option LocationInfo) (t : Option Timing)
    (success : Bool) (error : Option String) :
    (interactionRow now iid (persistedUser true user) question answer di li t success error).get? 2
      = some (Cell.str (redactUser user)) ∧
    redactUser user ≠ user ∧
    (user.length = other.length → redactUser user = redactUser other) := by
  refine ⟨rfl, ?_, ?_⟩
  · intro hEq
    have h2 := congrArg String.length hEq
    simp only [redactUser, String.length, String.toList, List.length_replicate] at h2
    omega
  · intro hLen
    have h3 : user.toList.length = other.toList.length := hLen
    simp only [redactUser, h3]

/-- C9: the persisted answer field is the truncated summary: an answer of at
most 200 characters is stored verbatim, a longer one is stored as its first
200 characters followed by three dots, a string of exactly 203 characters, so
the full text of a long answer is never persisted. -/
theorem c9_answer_summary
    (answer : String) (now : Now) (iid user question : String)
    (di : Option DeviceInfo) (li : Option LocationInfo) (t : Option Timing)
    (success : Bool) (error : Option String) :
    (answer.length ≤ 200 →
      (interactionRow now iid user question answer di li t success error).get? 4
        = some (Cell.str answer)) ∧
    (200 < answer.length →
      (interactionRow now iid user question answer di li t success error).get? 4
        = some (Cell.str (pyTake answer 200 ++ "...")) ∧
      (pyTake answer 200 ++ "...").length = 203) := by
  have hcell : (interactionRow now iid user question answer di li t success error).get? 4
      = some (Cell.str (if answer.length > 200 then pyTake answer 200 ++ "..." else answer)) := rfl
  constructor
  · intro h
    rw [hcell, if_neg (by omega)]
  · intro h
    refine ⟨by rw [hcell, if_pos (by omega)], ?_⟩
    have hlen : 200 < answer.data.length := h
    have h1 : (answer.data.take 200).length = 200 := by
      rw [List.length_take]
      omega
    have h3 : (pyTake answer 200 ++ "...").length
        = (answer.data.take 200 ++ "...".data).length := rfl
    rw [h3, List.length_append, h1]
    rfl

/-- The 201-character answer really has 201 characters. -/
theorem bigAnswer_length : bigAnswer.length = 201 :=
  List.length_replicate 201 'a'

/-- Witness for C9 at a 201-character answer: the stored cell is the 200-take
plus dots, of length 203. -/
theorem c9_witness :
    (interactionRow now0 "1" "ana" "q" bigAnswer none none none true none).get? 4
      = some (Cell.str (pyTake bigAnswer 200 ++ "...")) ∧
    (pyTake bigAnswer 200 ++ "...").length = 203 :=
  (c9_answer_summary bigAnswer now0 "1" "ana" "q" none none none true none).2
    (by rw [bigAnswer_length]; omega)

/-- C10: every row log_interaction builds has exactly 15 cells, positionally
aligned with the 15 headers _setup_headers writes, and a missing optional
input falls back to its fixed default: Desconocido for device, browser and
operating system, Desconocida for city, Desconocido for country, No
disponible for IP, 0.00 for the response time and the empty string for the
error. -/
theorem c10_row_shape
    (now : Now) (iid user question answer : String) (di : Option DeviceInfo)
    (li : Option LocationInfo) (t : Option Timing) (success : Bool)
    (error : Option String) :
    headers.length = 15 ∧
    (interactionRow now iid user question answer di li t success error).length = 15 ∧
    headers = ["ID", "Fecha/Hora", "Usuario", "Pregunta", "Respuesta (Resumen)",
      "Dispositivo", "Navegador", "Sistema Operativo", "Ciudad", "País", "IP",
      "Tiempo Respuesta (s)", "Estado", "Error", "Timestamp Unix"] ∧
    (interactionRow now iid user question answer none none none success none).get? 5
      = some (Cell.str "Desconocido") ∧
    (interactionRow now iid user question answer none none none success none).get? 6
      = some (Cell.str "Desconocido") ∧
    (interactionRow now iid user question answer none none none success none).get? 7
      = some (Cell.str "Desconocido") ∧
    (interactionRow now iid user question answer none none none success none).get? 8
      = some (Cell.str "Desconocida") ∧
    (interactionRow now iid user question answer none none none success none).get? 9
      = some (Cell.str "Desconocido") ∧
    (interactionRow now iid user question answer none none none success none).get? 10
      = some (Cell.str "No disponible") ∧
    (interactionRow now iid user question answer none none none success none).get? 11
      = some (Cell.str "0.00") ∧
    (interactionRow now iid user question answer none none none success none).get? 13
      = some (Cell.str "") := by
  refine ⟨rfl, rfl, rfl, rfl, rfl, rfl, rfl, rfl, rfl, ?_, rfl⟩
  have hcell : (interactionRow now iid user question answer none none none success none).get? 11
      = some (Cell.str (fmt2 0)) := rfl
  rw [hcell, fmt2_zero]

end GSL
